import Mathlib

/-!
# Shallow embedding of the CCL reservation system core

This file embeds the order/payment/report logic of the `ccl-reservation-system`
Django application (files `forms/models.py`, `forms/services.py`,
`forms/views.py`, `forms/constants.py`) and proves properties about it.

Database rows are modelled as Lean structures, the database as explicit lists
of rows, and each Python function as a Lean function that threads the database
state.  A Python function that can raise returns the database state reached at
the point of the raise together with an `Except` outcome: Django performs each
`objects.create`/`save` immediately and none of the embedded code opens a
transaction, so rows written before an exception stay written.
-/

deriving instance DecidableEq for Except

namespace CCLRes

/-! ## Python string primitives

Structural re-implementations of the `str` operations the embedded code uses
(`key.split("-")`, `email.split('@')`, `"quantity" in key`, `int(value)` as a
primary-key coercion).  They are written by structural recursion on `List Char`
so that concrete runs reduce inside the kernel. -/

/-- Split a character list at every occurrence of the separator character.
`acc` holds the (reversed) characters of the current piece. -/
def splitOnCharAux (sep : Char) : List Char → List Char → List (List Char)
  | [], acc => [acc.reverse]
  | c :: cs, acc =>
    if c == sep then acc.reverse :: splitOnCharAux sep cs []
    else splitOnCharAux sep cs (c :: acc)

/-- Python `s.split(sep)` for a one-character separator: the embedded code only
splits on `"-"` and `"@"`. -/
def pySplit (s : String) (sep : Char) : List String :=
  (splitOnCharAux sep s.toList []).map String.mk

/-- Is `p` a prefix of the second list? -/
def isPrefixCharList : List Char → List Char → Bool
  | [], _ => true
  | _ :: _, [] => false
  | p :: ps, c :: cs => p == c && isPrefixCharList ps cs

/-- Does `pat` occur as a contiguous sublist? -/
def containsCharList (pat : List Char) : List Char → Bool
  | [] => pat.isEmpty
  | c :: cs => isPrefixCharList pat (c :: cs) || containsCharList pat cs

/-- Python `pat in s` (substring containment). -/
def pyContains (pat : String) (s : String) : Bool :=
  containsCharList pat.toList s.toList

/-- Digit accumulator for `pyToNat`. -/
def pyToNatAux : List Char → Nat → Option Nat
  | [], acc => some acc
  | c :: cs, acc =>
    if c.isDigit then pyToNatAux cs (acc * 10 + (c.toNat - '0'.toNat))
    else none

/-- Python `int(s)` restricted to plain non-empty digit strings, the shape of
the primary keys the form submits; anything else raises `ValueError`,
modelled as `none`. -/
def pyToNat (s : String) : Option Nat :=
  match s.toList with
  | [] => none
  | c :: cs => pyToNatAux (c :: cs) 0

/-! ## Data model (`forms/models.py`)

One structure per model; foreign keys and many-to-many relations are stored as
row ids.  Nullable (`null=True`) character fields are `Option String`. -/

/-- `FoodItem`: name and integer price in PHP (`forms/models.py:13`). -/
structure FoodItem where
  id : Nat
  name : String
  price : Int
deriving Repr, DecidableEq

/-- `Reservation`: one weekday of an order; `weekday` ranges over the choice
strings `"1"`–`"5"`, `paid` defaults to `false` (`forms/models.py:74`). -/
structure ReservationRow where
  id : Nat
  weekday : String
  paid : Bool
deriving Repr, DecidableEq

/-- `Selection`: a (reservation, food item, quantity) line item
(`forms/models.py:104`). -/
structure SelectionRow where
  id : Nat
  reservation : Nat
  food_item : Nat
  quantity : Int
deriving Repr, DecidableEq

/-- Django auth `User` as far as this code touches it: username, email and the
stored password (`make_password` is treated as opaque storage of the random
password handed to the service). -/
structure UserRow where
  id : Nat
  username : String
  email : String
  password : String
deriving Repr, DecidableEq

/-- `Profile`: per-user record with reward-coin balance
(`forms/models.py:224`). -/
structure ProfileRow where
  id : Nat
  user : Nat
  name : Option String
  role : Option String
  department : Option String
  coins : Int
deriving Repr, DecidableEq

/-- `Order`: weekly submission; `reservations` is the many-to-many id list in
insertion order (`forms/models.py:279`). -/
structure OrderRow where
  id : Nat
  reservations : List Nat
  form : Nat
  profile : Nat
  paid : Bool
  total_paid : Int
  grade : Option String
  name : Option String
deriving Repr, DecidableEq

/-- `Option` row: the food items offered on one weekday of a form
(`forms/models.py:51`).  Food items are inlined since the report only reads
their names. -/
structure OptionRow where
  weekday : String
  food_items : List FoodItem
deriving Repr, DecidableEq

/-- `Form`: weekly publication owning its `Option` rows
(`forms/models.py:137`). -/
structure FormRow where
  id : Nat
  options : List OptionRow
deriving Repr, DecidableEq

/-- The relational state the embedded operations read and write, with fresh-id
counters standing in for auto-increment primary keys. -/
structure DB where
  food_items : List FoodItem
  users : List UserRow
  profiles : List ProfileRow
  orders : List OrderRow
  reservations : List ReservationRow
  selections : List SelectionRow
  next_user_id : Nat
  next_profile_id : Nat
  next_order_id : Nat
  next_reservation_id : Nat
  next_selection_id : Nat
deriving Repr, DecidableEq

/-- `FoodItem.objects.get(id=i)` after coercion of `i` to a number. -/
def getFoodItem (db : DB) (i : Nat) : Option FoodItem :=
  db.food_items.find? (fun f => f.id == i)

/-- `Order.objects.get(id=i)`. -/
def getOrder (db : DB) (i : Nat) : Option OrderRow :=
  db.orders.find? (fun o => o.id == i)

/-- `Reservation.objects.get(id=i)`. -/
def getReservation (db : DB) (i : Nat) : Option ReservationRow :=
  db.reservations.find? (fun r => r.id == i)

/-- `Profile.objects.get(id=i)`. -/
def getProfile (db : DB) (i : Nat) : Option ProfileRow :=
  db.profiles.find? (fun p => p.id == i)

/-! ## Constants (`forms/constants.py`) -/

/-- `ALLOWED_EMAIL_DOMAIN` (`forms/constants.py:28`). -/
def ALLOWED_EMAIL_DOMAIN : String := "cclcentrex.edu.ph"

/-- The `WEEKDAYS` dict `{"1": "monday", ..., "5": "friday"}`
(`forms/constants.py:4`); `none` models a `KeyError` on any other key. -/
def WEEKDAYS (k : String) : Option String :=
  if k == "1" then some "monday"
  else if k == "2" then some "tuesday"
  else if k == "3" then some "wednesday"
  else if k == "4" then some "thursday"
  else if k == "5" then some "friday"
  else none

/-! ## User service (`forms/services.py:60`) -/

/-- The OAuth user record fields the service reads; `Option` fields model
`user_data.get(...)` possibly returning `None`. -/
structure UserData where
  mail : String
  displayName : Option String
  jobTitle : Option String
  department : Option String
deriving Repr, DecidableEq

/-- `UserService.is_allowed_email` (`forms/services.py:63`):
`email.split('@')[1] == ALLOWED_EMAIL_DOMAIN`.  `none` models the
`IndexError` raised when the email contains no `@`. -/
def is_allowed_email (email : String) : Option Bool :=
  ((pySplit email '@').get? 1).map (fun d => d == ALLOWED_EMAIL_DOMAIN)

/-- `UserService.create_user_from_oauth` (`forms/services.py:68`).  The random
password is passed in as a parameter (the source draws it from
`random.choice`).  Returns the new state and either the created user's id,
`none` for a rejected domain (the Python `return None`), or an error. -/
def create_user_from_oauth (user_data : UserData) (random_password : String)
    (db : DB) : DB × Except String (Option Nat) :=
  match is_allowed_email user_data.mail with
  | none => (db, Except.error "IndexError")
  | some false => (db, Except.ok none)
  | some true =>
    let uid := db.next_user_id
    let user : UserRow :=
      { id := uid, username := user_data.mail, email := user_data.mail,
        password := random_password }
    let db1 := { db with users := db.users ++ [user], next_user_id := uid + 1 }
    let pid := db1.next_profile_id
    let prof : ProfileRow :=
      { id := pid, user := uid, name := user_data.displayName,
        role := user_data.jobTitle, department := user_data.department,
        coins := 50 }
    let db2 := { db1 with profiles := db1.profiles ++ [prof],
                          next_profile_id := pid + 1 }
    (db2, Except.ok (some uid))

/-! ## Reward crediting (`forms/models.py:260`, `forms/services.py:193`) -/

/-- `Profile.add_coins` (`forms/models.py:260`): `self.coins += amount`
followed by `self.save()`, at the level of the in-memory object. -/
def add_coins (p : ProfileRow) (amount : Int) : ProfileRow :=
  { p with coins := p.coins + amount }

/-- The reward-crediting step of `OrderService.create_order_from_form_data`
(`forms/services.py:193`–`196`) applied to a profile object:
`total_coins = (total_paid // 50) * 20; if total_coins > 0:
profile.add_coins(total_coins)`.  Python `//` is floor division, `Int.fdiv`. -/
def award_coins (profile : ProfileRow) (total_paid : Int) : ProfileRow :=
  let total_coins := Int.fdiv total_paid 50 * 20
  if total_coins > 0 then add_coins profile total_coins else profile

/-! ## Order service (`forms/services.py:155`) -/

/-- One parsed form entry `{"food_item_id": ..., "quantity": ...}`
(`forms/services.py:208`).  The quantity is the already-`int()`-coerced form
value. -/
structure FoodItemData where
  food_item_id : String
  quantity : Int
deriving Repr, DecidableEq

/-- The dict `{"1": [], "2": [], "3": [], "4": [], "5": []}` built by
`_group_food_items_by_weekday` (`forms/services.py:203`), one field per key
in insertion order. -/
structure WeekGroups where
  w1 : List FoodItemData
  w2 : List FoodItemData
  w3 : List FoodItemData
  w4 : List FoodItemData
  w5 : List FoodItemData
deriving Repr, DecidableEq

/-- One iteration of the loop of `_group_food_items_by_weekday`
(`forms/services.py:205`–`211`): keys containing `"quantity"` with a non-zero
value are split on `"-"` into `food_item_id, weekday_num, *rest` and appended
to the bucket for `weekday_num`.  Fewer than two split pieces raise
`ValueError` (tuple unpacking); a weekday key outside `"1"`–`"5"` raises
`KeyError`. -/
def groupStep (acc : WeekGroups) (kv : String × Int) : Except String WeekGroups :=
  if pyContains "quantity" kv.1 && kv.2 != 0 then
    match pySplit kv.1 '-' with
    | food_item_id :: weekday_num :: _rest =>
      let item : FoodItemData := { food_item_id := food_item_id, quantity := kv.2 }
      if weekday_num == "1" then Except.ok { acc with w1 := acc.w1 ++ [item] }
      else if weekday_num == "2" then Except.ok { acc with w2 := acc.w2 ++ [item] }
      else if weekday_num == "3" then Except.ok { acc with w3 := acc.w3 ++ [item] }
      else if weekday_num == "4" then Except.ok { acc with w4 := acc.w4 ++ [item] }
      else if weekday_num == "5" then Except.ok { acc with w5 := acc.w5 ++ [item] }
      else Except.error "KeyError"
    | _ => Except.error "ValueError"
  else Except.ok acc

/-- `OrderService._group_food_items_by_weekday` (`forms/services.py:200`–`213`).
The submitted form data is a list of (key, value) pairs in insertion order;
values are modelled as the integers `int(value)` produces. -/
def group_food_items_by_weekday (form_data : List (String × Int)) :
    Except String WeekGroups :=
  form_data.foldlM groupStep { w1 := [], w2 := [], w3 := [], w4 := [], w5 := [] }

/-- Python `x or "Unknown"` on a nullable string: `None` and `""` are falsy. -/
def pyStrOr (o : Option String) (dflt : String) : String :=
  match o with
  | some s => if s == "" then dflt else s
  | none => dflt

/-- The `Order.objects.create(...)` call opening
`create_order_from_form_data` (`forms/services.py:161`–`166`): fresh id, no
reservations yet, `paid`/`total_paid` at their defaults,
`grade=profile.department or "Unknown"`, `name=profile.name`. -/
def newOrderRow (oid : Nat) (active_form : Nat) (profile : ProfileRow) : OrderRow :=
  { id := oid, reservations := [], form := active_form, profile := profile.id,
    paid := false, total_paid := 0,
    grade := some (pyStrOr profile.department "Unknown"), name := profile.name }

/-- The inner loop of `create_order_from_form_data`
(`forms/services.py:177`–`186`): for each parsed entry, coerce the id and look
up the `FoodItem` (`DoesNotExist` aborts), accumulate `price * quantity`, and
insert a `Selection` row for reservation `rid`.  Returns the state reached so
far together with the accumulated total or the raised error. -/
def createSelections (rid : Nat) (db : DB) (total : Int) :
    List FoodItemData → DB × Except String Int
  | [] => (db, Except.ok total)
  | fid :: rest =>
    match pyToNat fid.food_item_id with
    | none => (db, Except.error "ValueError")
    | some nid =>
      match getFoodItem db nid with
      | none => (db, Except.error "FoodItem.DoesNotExist")
      | some food_item =>
        let quantity := fid.quantity
        let total2 := total + food_item.price * quantity
        let sid := db.next_selection_id
        let db2 := { db with
          selections := db.selections ++
            [{ id := sid, reservation := rid, food_item := nid, quantity := quantity }],
          next_selection_id := sid + 1 }
        createSelections rid db2 total2 rest

/-- The per-weekday loop of `create_order_from_form_data`
(`forms/services.py:173`–`188`): weekdays with an empty bucket are skipped;
otherwise a `Reservation` row is created, its selections inserted, and the
reservation id attached to order `oid` (`order.reservations.add`). -/
def createReservations (oid : Nat) (db : DB) (total : Int) :
    List (String × List FoodItemData) → DB × Except String Int
  | [] => (db, Except.ok total)
  | (weekday_num, food_items) :: rest =>
    if food_items.isEmpty then createReservations oid db total rest
    else
      let rid := db.next_reservation_id
      let db1 := { db with
        reservations := db.reservations ++
          [{ id := rid, weekday := weekday_num, paid := false }],
        next_reservation_id := rid + 1 }
      match createSelections rid db1 total food_items with
      | (db2, Except.error e) => (db2, Except.error e)
      | (db2, Except.ok total2) =>
        let db3 := { db2 with
          orders := db2.orders.map (fun o =>
            if o.id == oid then { o with reservations := o.reservations ++ [rid] }
            else o) }
        createReservations oid db3 total2 rest

/-- `OrderService.create_order_from_form_data` (`forms/services.py:158`–`198`).
No transaction is opened in the source, so on an exception the returned state
keeps every row written before the raise.  Returns the created order's id on
success. -/
def create_order_from_form_data (form_data : List (String × Int))
    (active_form : Nat) (profile : ProfileRow) (db : DB) :
    DB × Except String Nat :=
  let oid := db.next_order_id
  let db0 := { db with
    orders := db.orders ++ [newOrderRow oid active_form profile],
    next_order_id := oid + 1 }
  match group_food_items_by_weekday form_data with
  | Except.error e => (db0, Except.error e)
  | Except.ok groups =>
    match createReservations oid db0 0
        [("1", groups.w1), ("2", groups.w2), ("3", groups.w3),
         ("4", groups.w4), ("5", groups.w5)] with
    | (db1, Except.error e) => (db1, Except.error e)
    | (db1, Except.ok total_paid) =>
      let db2 := { db1 with
        orders := db1.orders.map (fun o =>
          if o.id == oid then { o with total_paid := total_paid } else o) }
      let total_coins := Int.fdiv total_paid 50 * 20
      let db3 :=
        if total_coins > 0 then
          { db2 with
            profiles := db2.profiles.map (fun p =>
              if p.id == profile.id then add_coins profile total_coins else p) }
        else db2
      (db3, Except.ok oid)

/-! ## Views (`forms/views.py`) -/

/-- The webhook endpoint `webhooks` (`forms/views.py:76`–`86`), applied to the
parsed payload: `ptype` is `req_json["type"]` and `metadata_order_id` the
`order_id` in the nested metadata (`none` when that key is absent).  Only the
event type `"checkout_session.payment.paid"` is handled: the referenced order's
`paid` flag is set and saved.  Every other event type falls through to the
`HttpResponse(200)`. -/
def webhooks (ptype : String) (metadata_order_id : Option Nat) (db : DB) :
    DB × Except String Unit :=
  if ptype == "checkout_session.payment.paid" then
    match metadata_order_id with
    | none => (db, Except.error "KeyError")
    | some order_id =>
      match getOrder db order_id with
      | none => (db, Except.error "Order.DoesNotExist")
      | some _ =>
        ({ db with
            orders := db.orders.map (fun o =>
              if o.id == order_id then { o with paid := true } else o) },
          Except.ok ())
  else (db, Except.ok ())

/-- The `delete_order` view on a POST request (`forms/views.py:150`–`156`):
fetch the order (`DoesNotExist` propagates), delete it only when
`order.paid is False`, and redirect either way. -/
def delete_order (db : DB) (oid : Nat) : DB × Except String Unit :=
  match getOrder db oid with
  | none => (db, Except.error "Order.DoesNotExist")
  | some order =>
    if order.paid == false then
      ({ db with orders := db.orders.filter (fun o => !(o.id == oid)) },
        Except.ok ())
    else (db, Except.ok ())

/-! ## Report service (`forms/services.py:216`)

Python dicts keyed by food-item name are modelled as association lists in
insertion order.  `d[k] = v` inserts or overwrites in place; `d[k] += q`
raises `KeyError` (modelled as `none`) when the key is absent. -/

/-- Membership test `k in d`. -/
def dictContains (d : List (String × Int)) (k : String) : Bool :=
  d.any (fun p => p.1 == k)

/-- Python `d[k] = v`: overwrite in place, else append. -/
def dictSet (d : List (String × Int)) (k : String) (v : Int) :
    List (String × Int) :=
  if dictContains d k then d.map (fun p => if p.1 == k then (p.1, v) else p)
  else d ++ [(k, v)]

/-- Python `d[k] += q`: `none` is the `KeyError` on a missing key. -/
def dictAdd (d : List (String × Int)) (k : String) (q : Int) :
    Option (List (String × Int)) :=
  if dictContains d k then
    some (d.map (fun p => if p.1 == k then (p.1, p.2 + q) else p))
  else none

/-- Python `d[k]` as a read. -/
def dictGet (d : List (String × Int)) (k : String) : Option Int :=
  (d.find? (fun p => p.1 == k)).map (fun p => p.2)

/-- The nested `count` structure of `generate_quantity_report`
(`forms/services.py:223`–`230`): one bucket per weekday plus `"total"`. -/
structure Count where
  monday : List (String × Int)
  tuesday : List (String × Int)
  wednesday : List (String × Int)
  thursday : List (String × Int)
  friday : List (String × Int)
  total : List (String × Int)
deriving Repr, DecidableEq

/-- `count[w]` for a weekday name; `none` models the `KeyError` on any other
string (unreachable from `WEEKDAYS`, which only yields the five names). -/
def countGetDay (c : Count) (w : String) : Option (List (String × Int)) :=
  if w == "monday" then some c.monday
  else if w == "tuesday" then some c.tuesday
  else if w == "wednesday" then some c.wednesday
  else if w == "thursday" then some c.thursday
  else if w == "friday" then some c.friday
  else none

/-- Write back `count[w]`. -/
def countSetDay (c : Count) (w : String) (d : List (String × Int)) : Count :=
  if w == "monday" then { c with monday := d }
  else if w == "tuesday" then { c with tuesday := d }
  else if w == "wednesday" then { c with wednesday := d }
  else if w == "thursday" then { c with thursday := d }
  else if w == "friday" then { c with friday := d }
  else c

/-- The body of the initialization loop of `generate_quantity_report` for one
food item (`forms/services.py:236`–`238`): set the weekday bucket entry to `0`
and the `"total"` entry to `0` unless already present. -/
def initFoodItem (weekday_name : String) (c2 : Count) (food_item : FoodItem) :
    Option Count := do
  let day ← countGetDay c2 weekday_name
  let c3 := countSetDay c2 weekday_name (dictSet day food_item.name 0)
  if !(dictContains c3.total food_item.name) then
    pure { c3 with total := dictSet c3.total food_item.name 0 }
  else
    pure c3

/-- The initialization loop body of `generate_quantity_report`
(`forms/services.py:233`–`238`): translate the option's weekday and fold
`initFoodItem` over its food items. -/
def initOption (c : Count) (opt : OptionRow) : Option Count := do
  let weekday_name ← WEEKDAYS opt.weekday
  opt.food_items.foldlM (initFoodItem weekday_name) c

/-- The innermost counting step (`forms/services.py:244`–`246`): add the
selection's quantity into the weekday bucket and the `"total"` bucket; a food
item name missing from a bucket raises `KeyError`.  The name is read through
the selection's foreign key. -/
def countSelection (db : DB) (weekday_name : String) (c : Count)
    (sel : SelectionRow) : Option Count := do
  let food_item ← getFoodItem db sel.food_item
  let day ← countGetDay c weekday_name
  let day2 ← dictAdd day food_item.name sel.quantity
  let c2 := countSetDay c weekday_name day2
  let total2 ← dictAdd c2.total food_item.name sel.quantity
  pure { c2 with total := total2 }

/-- Count one reservation of an order (`forms/services.py:242`–`246`):
resolve the reservation row, translate its weekday, and fold over its
`selection_set`. -/
def countReservation (db : DB) (c : Count) (rid : Nat) : Option Count := do
  let reservation ← getReservation db rid
  let weekday_name ← WEEKDAYS reservation.weekday
  (db.selections.filter (fun s => s.reservation == rid)).foldlM
    (countSelection db weekday_name) c

/-- `ReportService.generate_quantity_report` (`forms/services.py:219`–`248`):
initialize every (weekday, food-item-name) pair of the form's options to zero,
then scan every order of the form and add each selection's quantity into the
matching weekday bucket and the total bucket.  `none` models an uncaught
`KeyError`/`DoesNotExist` during the scan. -/
def generate_quantity_report (db : DB) (form : FormRow) : Option Count := do
  let orders := db.orders.filter (fun o => o.form == form.id)
  let c0 : Count := { monday := [], tuesday := [], wednesday := [],
                      thursday := [], friday := [], total := [] }
  let c1 ← form.options.foldlM initOption c0
  orders.foldlM (fun c order =>
    order.reservations.foldlM (countReservation db) c) c1

/-! ## Derived notions used by the theorems -/

/-- The in-place update `order.paid = True; order.save()` applied to a row of
the order table. -/
def setPaidFn (oid : Nat) : OrderRow → OrderRow :=
  fun o => if o.id == oid then { o with paid := true } else o

/-- A selection's line total `quantity × price`, reading the price through the
food-item foreign key (`Selection.line_total`, `forms/models.py:129`). -/
def lineTotal (db : DB) (s : SelectionRow) : Int :=
  match getFoodItem db s.food_item with
  | some f => s.quantity * f.price
  | none => 0

/-- Every value stored in a report bucket is zero. -/
def allZero (d : List (String × Int)) : Prop := ∀ p ∈ d, p.2 = 0

/-- All six buckets of a count structure hold only zeros. -/
def countZeroInv (c : Count) : Prop :=
  allZero c.monday ∧ allZero c.tuesday ∧ allZero c.wednesday ∧
  allZero c.thursday ∧ allZero c.friday ∧ allZero c.total

/-- The weekday bucket `w` of `c` exists and mentions key `k`. -/
def present (c : Count) (w : String) (k : String) : Prop :=
  ∃ d, countGetDay c w = some d ∧ dictContains d k = true

/-! ## Concrete fixtures

Small database states used to evaluate the operations on concrete inputs. -/

/-- A profile with an empty coin balance. -/
def profileFx : ProfileRow :=
  { id := 1, user := 1, name := some "Alice", role := none,
    department := some "Grade 7", coins := 0 }

/-- Catalog with two food items (ids 3 and 7, prices 50 and 80) and one
profile; no orders yet. -/
def dbFx : DB :=
  { food_items := [{ id := 3, name := "Adobo", price := 50 },
                   { id := 7, name := "Pancit", price := 80 }],
    users := [{ id := 1, username := "a", email := "a", password := "a" }],
    profiles := [profileFx], orders := [], reservations := [], selections := [],
    next_user_id := 2, next_profile_id := 2, next_order_id := 1,
    next_reservation_id := 1, next_selection_id := 1 }

/-- An unpaid order owning the single unpaid reservation `resFx`. -/
def ordFx : OrderRow :=
  { id := 1, reservations := [1], form := 1, profile := 1, paid := false,
    total_paid := 100, grade := none, name := none }

/-- An unpaid reservation for Monday. -/
def resFx : ReservationRow := { id := 1, weekday := "1", paid := false }

/-- A paid order with no reservations, for the deletion guard. -/
def ordPaidFx : OrderRow :=
  { id := 2, reservations := [], form := 1, profile := 1, paid := true,
    total_paid := 30, grade := none, name := none }

/-- State with one unpaid order (owning one unpaid reservation) and one paid
order. -/
def dbWeb : DB :=
  { dbFx with orders := [ordFx, ordPaidFx], reservations := [resFx],
              next_order_id := 3, next_reservation_id := 2 }

/-- Food items `A` and `B` offered on Monday. -/
def itemA : FoodItem := { id := 10, name := "A", price := 5 }

/-- Second Monday item. -/
def itemB : FoodItem := { id := 11, name := "B", price := 6 }

/-- A food item never offered on Monday. -/
def itemC : FoodItem := { id := 12, name := "C", price := 7 }

/-- A form whose single (Monday) option lists items `A` and `B`. -/
def formAB : FormRow :=
  { id := 1, options := [{ weekday := "1", food_items := [itemA, itemB] }] }

/-- State for `formAB` with zero orders. -/
def dbAB : DB :=
  { food_items := [itemA, itemB, itemC], users := [], profiles := [],
    orders := [], reservations := [], selections := [], next_user_id := 1,
    next_profile_id := 1, next_order_id := 1, next_reservation_id := 1,
    next_selection_id := 1 }

/-- State for `formAB` with one order: a Monday reservation selecting two of
item `A`. -/
def dbABCount : DB :=
  { dbAB with
    orders := [{ id := 1, reservations := [1], form := 1, profile := 1,
                 paid := false, total_paid := 10, grade := none, name := none }],
    reservations := [{ id := 1, weekday := "1", paid := false }],
    selections := [{ id := 1, reservation := 1, food_item := 10, quantity := 2 }] }

/-- Like `dbABCount` but the Monday selection references item `C`, which the
Monday option never listed. -/
def dbABStray : DB :=
  { dbABCount with
    selections := [{ id := 1, reservation := 1, food_item := 12, quantity := 2 }] }

/-- Like `dbABCount` but the reservation sits on Tuesday, where item `A` was
never initialized. -/
def dbABTuesday : DB :=
  { dbABCount with
    reservations := [{ id := 1, weekday := "2", paid := false }] }

/-- The state after submitting `{"3-1-quantity": 2, "7-3-quantity": 1}`
against `dbFx`. -/
def dbOrderFx : DB :=
  (create_order_from_form_data [("3-1-quantity", 2), ("7-3-quantity", 1)]
    1 profileFx dbFx).1

/-- The order row that submission persists: reservations for weekdays 1 and 3
and `total_paid = 2·50 + 1·80 = 180`. -/
def ordCreatedFx : OrderRow :=
  { id := 1, reservations := [1, 2], form := 1, profile := 1, paid := false,
    total_paid := 180, grade := some "Grade 7", name := some "Alice" }

/-- The report produced for `formAB` over the orderless state `dbAB`. -/
def cAB : Count :=
  { monday := [("A", 0), ("B", 0)], tuesday := [], wednesday := [],
    thursday := [], friday := [], total := [("A", 0), ("B", 0)] }

/-! ## Claim theorems -/

/-- C1, counterexample: the webhook handler has no per-reservation branch.  In
`dbWeb`, order 1 owns the single unpaid reservation 1.  A payment-success
notification of type `reservation` leaves the state completely unchanged (the
reservation's `paid` flag is not set and no cascade runs), and the one handled
event type marks the order paid while its reservation stays unpaid, so "Order
is paid iff all its Reservations are paid" fails. -/
theorem webhooks_reservation_event_noop :
    webhooks "reservation" (some 1) dbWeb = (dbWeb, Except.ok ()) ∧
    (getReservation dbWeb 1).map (fun r => r.paid) = some false ∧
    (getOrder (webhooks "checkout_session.payment.paid" (some 1) dbWeb).1 1).map
        (fun o => (o.paid, o.reservations)) = some (true, [1]) ∧
    (getReservation (webhooks "checkout_session.payment.paid" (some 1) dbWeb).1 1).map
        (fun r => r.paid) = some false := by decide

/-- C2: submitting `{"99-1-quantity": 2}` when no `FoodItem` with id 99 exists
raises `DoesNotExist`, yet the `Order` row and the weekday-1 `Reservation` row
created earlier in the same call remain persisted — `create_order_from_form_data`
opens no transaction, so the claimed all-or-nothing rollback does not happen. -/
theorem create_order_missing_item_partial_persist :
    (create_order_from_form_data [("99-1-quantity", 2)] 1 profileFx dbFx).2
      = Except.error "FoodItem.DoesNotExist" ∧
    (create_order_from_form_data [("99-1-quantity", 2)] 1 profileFx dbFx).1.orders
      = [newOrderRow 1 1 profileFx] ∧
    (create_order_from_form_data [("99-1-quantity", 2)] 1 profileFx dbFx).1.reservations
      = [{ id := 1, weekday := "1", paid := false }] ∧
    (create_order_from_form_data [("99-1-quantity", 2)] 1 profileFx dbFx).1 ≠ dbFx := by
  decide

/-- C9: `generate_quantity_report` is not total.  With `formAB` (Monday lists
`A` and `B`), a Monday selection of the never-listed item `C` hits a missing
dictionary key and the count loop raises `KeyError` (`none`); so does a
selection of `A` sitting on a Tuesday reservation, since `A` was only
initialized for Monday.  The same state with a Monday selection of `A`
produces a report. -/
theorem generate_quantity_report_keyerror :
    generate_quantity_report dbABStray formAB = none ∧
    generate_quantity_report dbABTuesday formAB = none ∧
    (generate_quantity_report dbABCount formAB).isSome = true := by decide

/-- C4: for every profile and non-negative amount spent, the reward crediting
step (`forms/services.py:193`–`196` with `Profile.add_coins`) adds exactly
`floor(amountSpent / 50) * 20` coins, does nothing when that value is not
positive, and in particular credits 40 for 149, 60 for 150 and 0 for 49. -/
theorem award_coins_contract (p : ProfileRow) (amountSpent : Int)
    (h : 0 ≤ amountSpent) :
    (award_coins p amountSpent).coins = p.coins + Int.fdiv amountSpent 50 * 20 ∧
    (¬ 0 < Int.fdiv amountSpent 50 * 20 → award_coins p amountSpent = p) ∧
    (award_coins p 149).coins = p.coins + 40 ∧
    (award_coins p 150).coins = p.coins + 60 ∧
    award_coins p 49 = p := by
  have hnn : 0 ≤ Int.fdiv amountSpent 50 * 20 :=
    mul_nonneg (Int.fdiv_nonneg h (by norm_num)) (by norm_num)
  have h149 : Int.fdiv (149 : Int) 50 * 20 = 40 := by decide
  have h150 : Int.fdiv (150 : Int) 50 * 20 = 60 := by decide
  have h49 : Int.fdiv (49 : Int) 50 * 20 = 0 := by decide
  refine ⟨?_, ?_, ?_, ?_, ?_⟩
  · unfold award_coins add_coins
    by_cases hp : 0 < Int.fdiv amountSpent 50 * 20
    · simp [hp]
    · have h0 : Int.fdiv amountSpent 50 * 20 = 0 := le_antisymm (not_lt.mp hp) hnn
      simp [hp, h0]
  · intro hp
    unfold award_coins
    simp [hp]
  · unfold award_coins add_coins
    rw [h149]
    norm_num
  · unfold award_coins add_coins
    rw [h150]
    norm_num
  · unfold award_coins
    rw [h49]
    norm_num

/-- Witness for C4 at the profile fixture and amount 149. -/
theorem award_coins_contract_witness :
    (award_coins profileFx 149).coins
      = profileFx.coins + Int.fdiv 149 50 * 20 :=
  (award_coins_contract profileFx 149 (by decide)).1

theorem find_map_setPaid (oid : Nat) (l : List OrderRow) :
    (l.map (setPaidFn oid)).find? (fun o => o.id == oid)
      = (l.find? (fun o => o.id == oid)).map
          (fun o => { o with paid := true }) := by
  induction l with
  | nil => rfl
  | cons a t ih =>
    by_cases hp : (a.id == oid) = true
    · simp [setPaidFn, List.find?, hp]
    · simp [setPaidFn, List.find?, hp, ih]

theorem setPaidFn_comp (oid : Nat) (a : OrderRow) :
    setPaidFn oid (setPaidFn oid a) = setPaidFn oid a := by
  by_cases hp : (a.id == oid) = true <;> simp [setPaidFn, hp]

theorem map_setPaid_idem (oid : Nat) (l : List OrderRow) :
    (l.map (setPaidFn oid)).map (setPaidFn oid) = l.map (setPaidFn oid) := by
  rw [List.map_map]
  exact List.map_congr_left (fun a _ => setPaidFn_comp oid a)

theorem webhooks_paid_eq (oid : Nat) (db : DB) (o : OrderRow)
    (h : getOrder db oid = some o) :
    webhooks "checkout_session.payment.paid" (some oid) db
      = ({ db with orders := db.orders.map (setPaidFn oid) }, Except.ok ()) := by
  simp only [webhooks, beq_self_eq_true, if_true, h]
  rfl

/-- C7: the order-paid webhook is idempotent.  For an existing order, a first
delivery sets `paid = true`; re-delivering the identical notification returns
exactly the same state and response, so there is no state change beyond the
first application. -/
theorem webhooks_order_paid_idempotent (db : DB) (oid : Nat) (o : OrderRow)
    (h : getOrder db oid = some o) :
    webhooks "checkout_session.payment.paid" (some oid)
        (webhooks "checkout_session.payment.paid" (some oid) db).1
      = webhooks "checkout_session.payment.paid" (some oid) db ∧
    getOrder (webhooks "checkout_session.payment.paid" (some oid) db).1 oid
      = some { o with paid := true } := by
  have h1 := webhooks_paid_eq oid db o h
  have hget1 : getOrder ({ db with orders := db.orders.map (setPaidFn oid) }) oid
      = some { o with paid := true } := by
    unfold getOrder at h ⊢
    rw [show ({ db with orders := db.orders.map (setPaidFn oid) } : DB).orders
          = db.orders.map (setPaidFn oid) from rfl]
    rw [find_map_setPaid, h]
    rfl
  constructor
  · rw [h1]
    have h2 := webhooks_paid_eq oid
      ({ db with orders := db.orders.map (setPaidFn oid) })
      { o with paid := true } hget1
    rw [h2]
    have : ({ db with orders := db.orders.map (setPaidFn oid) } : DB).orders.map
        (setPaidFn oid) = db.orders.map (setPaidFn oid) := map_setPaid_idem oid db.orders
    rw [show ({ ({ db with orders := db.orders.map (setPaidFn oid) } : DB) with
          orders := ({ db with orders := db.orders.map (setPaidFn oid) } : DB).orders.map
            (setPaidFn oid) } : DB)
        = { db with orders := ((db.orders.map (setPaidFn oid)).map (setPaidFn oid)) }
      from rfl]
    rw [map_setPaid_idem oid db.orders]
  · rw [h1]
    exact hget1

/-- Witness for C7 at the two-order fixture: re-delivery of the paid webhook
for order 1 changes nothing further and order 1 ends up paid. -/
theorem webhooks_order_paid_idempotent_witness :
    webhooks "checkout_session.payment.paid" (some 1)
        (webhooks "checkout_session.payment.paid" (some 1) dbWeb).1
      = webhooks "checkout_session.payment.paid" (some 1) dbWeb ∧
    getOrder (webhooks "checkout_session.payment.paid" (some 1) dbWeb).1 1
      = some { ordFx with paid := true } :=
  webhooks_order_paid_idempotent dbWeb 1 ordFx (by decide)

theorem find_filter_ne (oid : Nat) (l : List OrderRow) :
    (l.filter (fun o => !(o.id == oid))).find? (fun o => o.id == oid) = none := by
  rw [List.find?_eq_none]
  intro x hx
  have hmem := List.mem_filter.mp hx
  simpa using hmem.2

/-- C8: the `delete_order` view deletes an existing unpaid order (its row is
gone afterwards) and refuses to delete a paid one, leaving the state exactly
as it was. -/
theorem delete_order_guard (db : DB) (oid : Nat) (o : OrderRow)
    (h : getOrder db oid = some o) :
    (o.paid = false →
      delete_order db oid
        = ({ db with orders := db.orders.filter (fun x => !(x.id == oid)) },
           Except.ok ()) ∧
      getOrder (delete_order db oid).1 oid = none) ∧
    (o.paid = true → delete_order db oid = (db, Except.ok ())) := by
  constructor
  · intro hp
    have hdel : delete_order db oid
        = ({ db with orders := db.orders.filter (fun x => !(x.id == oid)) },
           Except.ok ()) := by
      simp only [delete_order, h, hp]
      rfl
    refine ⟨hdel, ?_⟩
    rw [hdel]
    unfold getOrder
    exact find_filter_ne oid db.orders
  · intro hp
    simp only [delete_order, h, hp]
    rfl

/-- Witness for C8: deleting unpaid order 1 from `dbWeb` removes its row;
deleting paid order 2 leaves the state untouched. -/
theorem delete_order_guard_witness :
    getOrder (delete_order dbWeb 1).1 1 = none ∧
    delete_order dbWeb 2 = (dbWeb, Except.ok ()) :=
  ⟨((delete_order_guard dbWeb 1 ordFx (by decide)).1 (by decide)).2,
   (delete_order_guard dbWeb 2 ordPaidFx (by decide)).2 (by decide)⟩

/-- C10: `create_user_from_oauth` rejects every OAuth record whose email
domain is not the allowed organizational domain, returning `None` and
persisting nothing; for an allowed record it persists exactly one new `User`
and one new `Profile`, and the profile's initial coin balance is 50. -/
theorem create_user_from_oauth_spec (ud : UserData) (pw : String) (db : DB) :
    (is_allowed_email ud.mail = some false →
      create_user_from_oauth ud pw db = (db, Except.ok none)) ∧
    (is_allowed_email ud.mail = some true →
      (create_user_from_oauth ud pw db).2 = Except.ok (some db.next_user_id) ∧
      (create_user_from_oauth ud pw db).1.users
        = db.users ++ [{ id := db.next_user_id, username := ud.mail,
                         email := ud.mail, password := pw }] ∧
      (create_user_from_oauth ud pw db).1.profiles
        = db.profiles ++ [{ id := db.next_profile_id, user := db.next_user_id,
                            name := ud.displayName, role := ud.jobTitle,
                            department := ud.department, coins := 50 }] ∧
      (create_user_from_oauth ud pw db).1.orders = db.orders ∧
      (create_user_from_oauth ud pw db).1.reservations = db.reservations ∧
      (create_user_from_oauth ud pw db).1.selections = db.selections) := by
  constructor
  · intro h
    unfold create_user_from_oauth
    rw [h]
  · intro h
    unfold create_user_from_oauth
    rw [h]
    exact ⟨rfl, rfl, rfl, rfl, rfl, rfl⟩

/-- Witness for C10: a `gmail.com` record is rejected without persistence; an
organizational record creates the user and a 50-coin profile. -/
theorem create_user_from_oauth_spec_witness :
    create_user_from_oauth
        { mail := "x@gmail.com", displayName := some "X", jobTitle := none,
          department := none } "pw" dbFx = (dbFx, Except.ok none) ∧
    (create_user_from_oauth
        { mail := "y@cclcentrex.edu.ph", displayName := some "Y",
          jobTitle := none, department := none } "pw" dbFx).1.profiles
      = dbFx.profiles ++ [{ id := 2, user := 2, name := some "Y", role := none,
                            department := none, coins := 50 }] :=
  ⟨(create_user_from_oauth_spec
      { mail := "x@gmail.com", displayName := some "X", jobTitle := none,
        department := none } "pw" dbFx).1 (by decide),
   ((create_user_from_oauth_spec
      { mail := "y@cclcentrex.edu.ph", displayName := some "Y",
        jobTitle := none, department := none } "pw" dbFx).2 (by decide)).2.2.1⟩

/-- C1, amended: the webhook handler processes only notifications whose type
is `checkout_session.payment.paid`, setting the referenced Order's `paid` flag
to true directly; a notification of any other type (per-reservation payment
types included) leaves the state unchanged, and the handler never modifies any
Reservation's `paid` flag, so no reservation-to-order cascade exists. -/
theorem webhooks_amended_spec (ptype : String) (md : Option Nat) (db : DB) :
    ((ptype == "checkout_session.payment.paid") = false →
      webhooks ptype md db = (db, Except.ok ())) ∧
    (webhooks ptype md db).1.reservations = db.reservations ∧
    (∀ oid o, md = some oid → getOrder db oid = some o →
      (ptype == "checkout_session.payment.paid") = true →
      getOrder (webhooks ptype md db).1 oid = some { o with paid := true }) := by
  refine ⟨?_, ?_, ?_⟩
  · intro hf
    simp [webhooks, hf]
  · by_cases hc : (ptype == "checkout_session.payment.paid") = true
    · cases md with
      | none => simp [webhooks, hc]
      | some oid =>
        cases hgo : getOrder db oid with
        | none => simp [webhooks, hc, hgo]
        | some o => simp [webhooks, hc, hgo]
    · simp [webhooks, hc]
  · intro oid o hmd hget hc
    subst hmd
    have hstr : ptype = "checkout_session.payment.paid" := eq_of_beq hc
    subst hstr
    rw [webhooks_paid_eq oid db o hget]
    unfold getOrder at hget ⊢
    rw [show ({ db with orders := db.orders.map (setPaidFn oid) } : DB).orders
          = db.orders.map (setPaidFn oid) from rfl]
    rw [find_map_setPaid, hget]
    rfl

/-- Witness for C1's amended claim: in `dbWeb`, a `reservation`-type
notification is a no-op and the handled type marks order 1 paid. -/
theorem webhooks_amended_spec_witness :
    webhooks "reservation" (some 1) dbWeb = (dbWeb, Except.ok ()) ∧
    getOrder (webhooks "checkout_session.payment.paid" (some 1) dbWeb).1 1
      = some { ordFx with paid := true } :=
  ⟨(webhooks_amended_spec "reservation" (some 1) dbWeb).1 (by decide),
   (webhooks_amended_spec "checkout_session.payment.paid" (some 1) dbWeb).2.2
     1 ordFx rfl (by decide) (by decide)⟩

theorem group_all_zero (form_data : List (String × Int))
    (hq : ∀ kv ∈ form_data, pyContains "quantity" kv.1 = true → kv.2 = 0) :
    group_food_items_by_weekday form_data
      = Except.ok { w1 := [], w2 := [], w3 := [], w4 := [], w5 := [] } := by
  unfold group_food_items_by_weekday
  induction form_data with
  | nil => rfl
  | cons kv t ih =>
    have hstep : groupStep { w1 := [], w2 := [], w3 := [], w4 := [], w5 := [] } kv
        = Except.ok { w1 := [], w2 := [], w3 := [], w4 := [], w5 := [] } := by
      unfold groupStep
      by_cases hc : pyContains "quantity" kv.1 = true
      · have hz : kv.2 = 0 := hq kv (List.mem_cons_self kv t) hc
        simp [hc, hz]
      · simp [hc]
    rw [List.foldlM_cons, hstep]
    exact ih (fun kv2 hkv2 => hq kv2 (List.mem_cons_of_mem kv hkv2))

theorem list_map_self {α : Type} (l : List α) (f : α → α)
    (h : ∀ a ∈ l, f a = a) : l.map f = l := by
  induction l with
  | nil => rfl
  | cons a t ih =>
    rw [List.map_cons, h a (List.mem_cons_self a t),
        ih (fun x hx => h x (List.mem_cons_of_mem a hx))]

/-- C6: when every submitted quantity is zero (keys without `"quantity"` in
them are ignored, so absent quantities are covered), `create_order_from_form_data`
creates no Reservation and no Selection, and the one Order it creates has
`total_paid = 0`; no coins are credited.  The freshness hypothesis says the
auto-increment counter does not collide with an existing order id. -/
theorem create_order_all_zero (form_data : List (String × Int))
    (active_form : Nat) (profile : ProfileRow) (db : DB)
    (hq : ∀ kv ∈ form_data, pyContains "quantity" kv.1 = true → kv.2 = 0)
    (hfresh : ∀ o ∈ db.orders, o.id ≠ db.next_order_id) :
    create_order_from_form_data form_data active_form profile db
      = ({ db with
            orders := db.orders
              ++ [newOrderRow db.next_order_id active_form profile],
            next_order_id := db.next_order_id + 1 },
         Except.ok db.next_order_id) ∧
    (create_order_from_form_data form_data active_form profile db).1.reservations
      = db.reservations ∧
    (create_order_from_form_data form_data active_form profile db).1.selections
      = db.selections ∧
    (newOrderRow db.next_order_id active_form profile).total_paid = 0 := by
  have hmain : create_order_from_form_data form_data active_form profile db
      = ({ db with
            orders := db.orders
              ++ [newOrderRow db.next_order_id active_form profile],
            next_order_id := db.next_order_id + 1 },
         Except.ok db.next_order_id) := by
    have hres : createReservations db.next_order_id
        ({ db with
            orders := db.orders
              ++ [newOrderRow db.next_order_id active_form profile],
            next_order_id := db.next_order_id + 1 }) 0
        [("1", []), ("2", []), ("3", []), ("4", []), ("5", [])]
        = ({ db with
              orders := db.orders
                ++ [newOrderRow db.next_order_id active_form profile],
              next_order_id := db.next_order_id + 1 },
           Except.ok 0) := rfl
    have hmap : (db.orders
          ++ [newOrderRow db.next_order_id active_form profile]).map
          (fun o => if o.id == db.next_order_id then { o with total_paid := 0 }
           else o)
        = db.orders ++ [newOrderRow db.next_order_id active_form profile] := by
      rw [List.map_append]
      rw [list_map_self db.orders _
        (fun o ho => by
          have hne : (o.id == db.next_order_id) = false :=
            beq_eq_false_iff_ne.mpr (hfresh o ho)
          simp [hne])]
      simp [newOrderRow]
    simp only [create_order_from_form_data]
    rw [group_all_zero form_data hq]
    simp only [hres]
    rw [hmap]
    norm_num [Int.zero_fdiv]
  refine ⟨hmain, ?_, ?_, rfl⟩
  · rw [hmain]
  · rw [hmain]

/-- Witness for C6: an all-zero submission against `dbFx` creates only the
order row. -/
theorem create_order_all_zero_witness :
    create_order_from_form_data [("3-1-quantity", 0), ("7-2-quantity", 0)]
        1 profileFx dbFx
      = ({ dbFx with orders := dbFx.orders ++ [newOrderRow 1 1 profileFx], next_order_id := 2 }, Except.ok 1) :=
  (create_order_all_zero [("3-1-quantity", 0), ("7-2-quantity", 0)]
    1 profileFx dbFx (by decide) (by decide)).1

theorem lineTotal_congr (db db2 : DB) (h : db2.food_items = db.food_items)
    (s : SelectionRow) : lineTotal db2 s = lineTotal db s := by
  unfold lineTotal getFoodItem
  rw [h]

theorem createSelections_spec (items : List FoodItemData) (rid : Nat)
    (db : DB) (total : Int) (db2 : DB) (total2 : Int)
    (h : createSelections rid db total items = (db2, Except.ok total2)) :
    db2.food_items = db.food_items ∧
    ∃ news, db2.selections = db.selections ++ news ∧
      total2 = total + (news.map (lineTotal db)).sum := by
  induction items generalizing db total with
  | nil =>
    unfold createSelections at h
    injection h with hdb hex
    injection hex with ht
    subst hdb
    subst ht
    exact ⟨rfl, [], by simp, by simp⟩
  | cons fid rest ih =>
    unfold createSelections at h
    cases hn : pyToNat fid.food_item_id with
    | none =>
      simp only [hn] at h
      exact absurd (congrArg Prod.snd h) (by simp)
    | some nid =>
      simp only [hn] at h
      cases hf : getFoodItem db nid with
      | none =>
        simp only [hf] at h
        exact absurd (congrArg Prod.snd h) (by simp)
      | some food_item =>
        simp only [hf] at h
        obtain ⟨hfi, news, hsel, htot⟩ := ih _ _ h
        have hfi2 : db2.food_items = db.food_items := hfi
        have hsel2 : db2.selections = (db.selections ++ [{ id := db.next_selection_id, reservation := rid, food_item := nid, quantity := fid.quantity }]) ++ news := hsel
        have htot2 : total2 = (total + food_item.price * fid.quantity)
            + (news.map (lineTotal db)).sum := htot
        refine ⟨hfi2, { id := db.next_selection_id, reservation := rid, food_item := nid, quantity := fid.quantity } :: news, ?_, ?_⟩
        · rw [hsel2]
          simp
        · rw [htot2, List.map_cons, List.sum_cons]
          have hsl : lineTotal db { id := db.next_selection_id, reservation := rid, food_item := nid, quantity := fid.quantity } = fid.quantity * food_item.price := by
            simp [lineTotal, hf]
          rw [hsl]
          ring

theorem createReservations_spec (ws : List (String × List FoodItemData))
    (oid : Nat) (db : DB) (total : Int) (db2 : DB) (total2 : Int)
    (h : createReservations oid db total ws = (db2, Except.ok total2)) :
    db2.food_items = db.food_items ∧
    ∃ news, db2.selections = db.selections ++ news ∧
      total2 = total + (news.map (lineTotal db)).sum := by
  induction ws generalizing db total with
  | nil =>
    unfold createReservations at h
    injection h with hdb hex
    injection hex with ht
    subst hdb
    subst ht
    exact ⟨rfl, [], by simp, by simp⟩
  | cons w rest ih =>
    obtain ⟨weekday_num, food_items⟩ := w
    unfold createReservations at h
    by_cases he : food_items.isEmpty = true
    · rw [if_pos he] at h
      exact ih _ _ h
    · rw [if_neg he] at h
      dsimp only [] at h
      split at h
      · exact absurd (congrArg Prod.snd h) (by simp)
      · rename_i dbx t2 heq
        obtain ⟨hfi1, news1, hsel1, htot1⟩ :=
          createSelections_spec _ _ _ _ _ _ heq
        have hfi1b : dbx.food_items = db.food_items := hfi1
        have hsel1b : dbx.selections = db.selections ++ news1 := hsel1
        have htot1b : t2 = total + (news1.map (lineTotal db)).sum := htot1
        obtain ⟨hfi2, news2, hsel2, htot2⟩ := ih _ _ h
        have hfi2b : db2.food_items = dbx.food_items := hfi2
        have hsel2b : db2.selections = dbx.selections ++ news2 := hsel2
        have htot2b : total2 = t2 + (news2.map (lineTotal dbx)).sum := htot2
        refine ⟨by rw [hfi2b, hfi1b], news1 ++ news2, ?_, ?_⟩
        · rw [hsel2b, hsel1b, List.append_assoc]
        · rw [htot2b, htot1b, List.map_append, List.sum_append]
          rw [List.map_congr_left (fun s _ => lineTotal_congr db dbx hfi1b s)]
          ring

theorem find_map_setTotal (oid : Nat) (t : Int) (l : List OrderRow)
    (o : OrderRow)
    (h : (l.map (fun x => if x.id == oid then { x with total_paid := t } else x)).find?
        (fun x => x.id == oid) = some o) :
    o.total_paid = t := by
  induction l with
  | nil => simp [List.find?] at h
  | cons a rest ih =>
    by_cases hp : (a.id == oid) = true
    · simp only [List.map_cons, hp, if_true, List.find?] at h
      injection h with h2
      rw [← h2]
    · simp only [List.map_cons, hp, if_false, Bool.false_eq_true,
        List.find?] at h
      exact ih h

/-- C3: whenever `create_order_from_form_data` returns an order (in
particular, for every submission with a non-zero quantity whose food-item ids
all exist), the persisted order's `total_paid` equals the sum, over exactly
the Selection rows created by that call (all of which belong to that order's
reservations), of the selection's `quantity × price`. -/
theorem create_order_total_paid_eq_sum (form_data : List (String × Int))
    (active_form : Nat) (profile : ProfileRow) (db db2 : DB) (oid : Nat)
    (h : create_order_from_form_data form_data active_form profile db
          = (db2, Except.ok oid))
    (o : OrderRow) (ho : getOrder db2 oid = some o) :
    o.total_paid
      = ((db2.selections.drop db.selections.length).map (lineTotal db2)).sum := by
  simp only [create_order_from_form_data] at h
  split at h
  · exact absurd (congrArg Prod.snd h) (by simp)
  · rename_i groups hg
    split at h
    · exact absurd (congrArg Prod.snd h) (by simp)
    · rename_i dbx total_paid hcr
      obtain ⟨hfi, news, hsel, htot⟩ := createReservations_spec _ _ _ _ _ _ hcr
      have hfib : dbx.food_items = db.food_items := hfi
      have hselb : dbx.selections = db.selections ++ news := hsel
      have htotb : total_paid = 0 + (news.map (lineTotal db)).sum := htot
      rw [Prod.mk.injEq] at h
      obtain ⟨hfst, hsnd⟩ := h
      injection hsnd with hoid
      subst hoid
      have horders : db2.orders = dbx.orders.map (fun x =>
          if x.id == db.next_order_id then { x with total_paid := total_paid }
          else x) := by
        rw [← hfst]
        split <;> rfl
      have hsels : db2.selections = dbx.selections := by
        rw [← hfst]
        split <;> rfl
      have hfood : db2.food_items = dbx.food_items := by
        rw [← hfst]
        split <;> rfl
      have hop : o.total_paid = total_paid := by
        unfold getOrder at ho
        rw [horders] at ho
        exact find_map_setTotal _ _ _ _ ho
      have hdrop : db2.selections.drop db.selections.length = news := by
        rw [hsels, hselb]
        exact List.drop_left _ _
      rw [hop, hdrop, htotb]
      rw [List.map_congr_left
        (fun s _ => lineTotal_congr db db2 (by rw [hfood, hfib]) s)]
      ring

/-- Witness for C3 at the end-to-end submission fixture. -/
theorem create_order_total_paid_eq_sum_witness :
    ordCreatedFx.total_paid
      = ((dbOrderFx.selections.drop dbFx.selections.length).map
          (lineTotal dbOrderFx)).sum :=
  create_order_total_paid_eq_sum [("3-1-quantity", 2), ("7-3-quantity", 1)]
    1 profileFx dbFx dbOrderFx 1 (by decide) ordCreatedFx (by decide)

theorem allZero_nil : allZero [] := by
  intro p hp
  cases hp

theorem allZero_dictSet0 (d : List (String × Int)) (k : String)
    (h : allZero d) : allZero (dictSet d k 0) := by
  unfold dictSet
  by_cases hc : dictContains d k = true
  · rw [if_pos hc]
    intro p hp
    obtain ⟨q, hq, hpq⟩ := List.mem_map.mp hp
    by_cases hk : (q.1 == k) = true
    · rw [if_pos hk] at hpq
      rw [← hpq]
    · rw [if_neg hk] at hpq
      rw [← hpq]
      exact h q hq
  · rw [if_neg hc]
    intro p hp
    rcases List.mem_append.mp hp with hm | hm
    · exact h p hm
    · rw [List.mem_singleton.mp hm]

theorem dictContains_dictSet_mono (d : List (String × Int)) (k k2 : String)
    (v : Int) (h : dictContains d k2 = true) :
    dictContains (dictSet d k v) k2 = true := by
  unfold dictSet
  by_cases hc : dictContains d k = true
  · rw [if_pos hc]
    unfold dictContains at h ⊢
    obtain ⟨p, hp, hpk⟩ := List.any_eq_true.mp h
    refine List.any_eq_true.mpr
      ⟨if p.1 == k then (p.1, v) else p, List.mem_map.mpr ⟨p, hp, rfl⟩, ?_⟩
    by_cases hk : (p.1 == k) = true
    · rw [if_pos hk]
      exact hpk
    · rw [if_neg hk]
      exact hpk
  · rw [if_neg hc]
    unfold dictContains at h ⊢
    simp [List.any_append, h]

theorem dictContains_dictSet_self (d : List (String × Int)) (k : String)
    (v : Int) : dictContains (dictSet d k v) k = true := by
  unfold dictSet
  by_cases hc : dictContains d k = true
  · rw [if_pos hc]
    unfold dictContains at hc ⊢
    obtain ⟨p, hp, hpk⟩ := List.any_eq_true.mp hc
    refine List.any_eq_true.mpr
      ⟨if p.1 == k then (p.1, v) else p, List.mem_map.mpr ⟨p, hp, rfl⟩, ?_⟩
    rw [if_pos hpk]
    exact hpk
  · rw [if_neg hc]
    unfold dictContains
    simp [List.any_append]

theorem allZero_dictGet (d : List (String × Int)) (k : String)
    (hz : allZero d) (hc : dictContains d k = true) : dictGet d k = some 0 := by
  unfold dictGet
  cases hf : d.find? (fun p => p.1 == k) with
  | none =>
    unfold dictContains at hc
    rw [List.find?_eq_none] at hf
    obtain ⟨p, hp, hpk⟩ := List.any_eq_true.mp hc
    exact absurd hpk (hf p hp)
  | some p =>
    have hmem := List.mem_of_find?_eq_some hf
    simp [hz p hmem]

theorem report_no_orders (db : DB) (form : FormRow)
    (hno : db.orders.filter (fun o => o.form == form.id) = []) :
    generate_quantity_report db form
      = form.options.foldlM initOption
          { monday := [], tuesday := [], wednesday := [], thursday := [],
            friday := [], total := [] } := by
  simp only [generate_quantity_report]
  rw [hno]
  cases hfold : form.options.foldlM initOption
      { monday := [], tuesday := [], wednesday := [], thursday := [],
        friday := [], total := [] } with
  | none => simp [hfold]
  | some c1 => simp [hfold]

theorem initFoodItem_monday_fold (items : List FoodItem) (c c2 : Count)
    (h : items.foldlM (initFoodItem "monday") c = some c2)
    (hzm : allZero c.monday) (hzt : allZero c.total) :
    allZero c2.monday ∧ allZero c2.total ∧
    (∀ fi ∈ items, dictContains c2.monday fi.name = true ∧
      dictContains c2.total fi.name = true) := by
  induction items generalizing c with
  | nil =>
    injection h with h2
    subst h2
    exact ⟨hzm, hzt, fun fi hfi => absurd hfi (List.not_mem_nil fi)⟩
  | cons fi rest ih =>
    have hmono : ∀ c3 c4 : Count,
        rest.foldlM (initFoodItem "monday") c3 = some c4 →
        (∀ k, dictContains c3.monday k = true →
          dictContains c4.monday k = true) ∧
        (∀ k, dictContains c3.total k = true →
          dictContains c4.total k = true) := by
      intro c3 c4 hfold
      clear ih h
      induction rest generalizing c3 with
      | nil =>
        injection hfold with h2
        subst h2
        exact ⟨fun k hk => hk, fun k hk => hk⟩
      | cons fj rest2 ih2 =>
        rw [List.foldlM_cons] at hfold
        cases hstep : initFoodItem "monday" c3 fj with
        | none =>
          rw [hstep] at hfold
          simp at hfold
        | some c5 =>
          rw [hstep] at hfold
          simp only [Option.bind_eq_bind, Option.some_bind] at hfold
          have hrest := ih2 c5 hfold
          by_cases hct : dictContains c3.total fj.name = true
          · have hc5 : c5 = { c3 with monday := dictSet c3.monday fj.name 0 } := by
              have h6 := hstep
              simp [initFoodItem, countGetDay, countSetDay, hct] at h6
              exact h6.symm
            subst hc5
            exact ⟨fun k hk => hrest.1 k (dictContains_dictSet_mono _ _ _ _ hk),
                   fun k hk => hrest.2 k hk⟩
          · have hc5 : c5 = { c3 with monday := dictSet c3.monday fj.name 0, total := dictSet c3.total fj.name 0 } := by
              have h6 := hstep
              simp [initFoodItem, countGetDay, countSetDay, hct] at h6
              exact h6.symm
            subst hc5
            exact ⟨fun k hk => hrest.1 k (dictContains_dictSet_mono _ _ _ _ hk),
                   fun k hk => hrest.2 k (dictContains_dictSet_mono _ _ _ _ hk)⟩
    rw [List.foldlM_cons] at h
    cases hstep : initFoodItem "monday" c fi with
    | none =>
      rw [hstep] at h
      simp at h
    | some c5 =>
      rw [hstep] at h
      simp only [Option.bind_eq_bind, Option.some_bind] at h
      by_cases hct : dictContains c.total fi.name = true
      · have hc5 : c5 = { c with monday := dictSet c.monday fi.name 0 } := by
          have h6 := hstep
          simp [initFoodItem, countGetDay, countSetDay, hct] at h6
          exact h6.symm
        subst hc5
        obtain ⟨hz1, hz2, hadds⟩ := ih _ h (allZero_dictSet0 _ _ hzm) hzt
        refine ⟨hz1, hz2, fun fj hfj => ?_⟩
        rcases List.mem_cons.mp hfj with rfl | hfj2
        · obtain ⟨hm1, hm2⟩ := hmono _ _ h
          exact ⟨hm1 fj.name (dictContains_dictSet_self _ _ _), hm2 fj.name hct⟩
        · exact hadds fj hfj2
      · have hc5 : c5 = { c with monday := dictSet c.monday fi.name 0, total := dictSet c.total fi.name 0 } := by
          have h6 := hstep
          simp [initFoodItem, countGetDay, countSetDay, hct] at h6
          exact h6.symm
        subst hc5
        obtain ⟨hz1, hz2, hadds⟩ :=
          ih _ h (allZero_dictSet0 _ _ hzm) (allZero_dictSet0 _ _ hzt)
        refine ⟨hz1, hz2, fun fj hfj => ?_⟩
        rcases List.mem_cons.mp hfj with rfl | hfj2
        · obtain ⟨hm1, hm2⟩ := hmono _ _ h
          exact ⟨hm1 fj.name (dictContains_dictSet_self _ _ _),
                 hm2 fj.name (dictContains_dictSet_self _ _ _)⟩
        · exact hadds fj hfj2

/-- C5: with zero orders the counting loop contributes nothing, so the report
is exactly the initialization of the form's options; a Monday option list is
initialized with every listed item's name at zero (generic in the item list);
and concretely, for `formAB` (Monday lists `A` and `B`) with zero orders the
monday bucket is exactly `{A: 0, B: 0}`, while a Monday selection of quantity
2 for `A` is added into both the monday bucket and the total bucket. -/
theorem generate_quantity_report_spec :
    (∀ (db : DB) (form : FormRow),
      db.orders.filter (fun o => o.form == form.id) = [] →
      generate_quantity_report db form
        = form.options.foldlM initOption
            { monday := [], tuesday := [], wednesday := [], thursday := [],
              friday := [], total := [] }) ∧
    (∀ (items : List FoodItem) (db : DB) (form : FormRow),
      form.options = [{ weekday := "1", food_items := items }] →
      db.orders.filter (fun o => o.form == form.id) = [] →
      ∀ c, generate_quantity_report db form = some c →
      ∀ fi ∈ items, dictGet c.monday fi.name = some 0 ∧
        dictGet c.total fi.name = some 0) ∧
    (generate_quantity_report dbAB formAB).map (fun c => c.monday)
      = some [("A", 0), ("B", 0)] ∧
    (generate_quantity_report dbABCount formAB).map
        (fun c => (c.monday, c.total))
      = some ([("A", 2), ("B", 0)], [("A", 2), ("B", 0)]) := by
  refine ⟨fun db form hno => report_no_orders db form hno, ?_, by decide, by decide⟩
  intro items db form hopt hno c hc fi hfi
  rw [report_no_orders db form hno, hopt] at hc
  simp only [List.foldlM_cons, List.foldlM_nil, initOption, WEEKDAYS] at hc
  simp only [Option.bind_eq_bind] at hc
  obtain ⟨hz1, hz2, hadds⟩ :=
    initFoodItem_monday_fold items _ c (by simpa using hc) allZero_nil allZero_nil
  obtain ⟨hcm, hct⟩ := hadds fi hfi
  exact ⟨allZero_dictGet _ _ hz1 hcm, allZero_dictGet _ _ hz2 hct⟩

/-- Witness for C5: the two generic parts applied to the `formAB`/`dbAB`
fixture and its computed report `cAB`. -/
theorem generate_quantity_report_spec_witness :
    generate_quantity_report dbAB formAB
      = formAB.options.foldlM initOption
          { monday := [], tuesday := [], wednesday := [], thursday := [],
            friday := [], total := [] } ∧
    (dictGet cAB.monday itemA.name = some 0 ∧
     dictGet cAB.total itemA.name = some 0) :=
  ⟨generate_quantity_report_spec.1 dbAB formAB (by decide),
   generate_quantity_report_spec.2.1 [itemA, itemB] dbAB formAB rfl (by decide)
     cAB (by decide) itemA (by decide)⟩

end CCLRes
